import Mathlib

/-!
Verification development for the gro api-client core
(`src/gro/client.py`, with `lib.rank_series_by_source` and
`lib.get_descendant_regions` modelled from the specification, since the
`lib` module itself is not part of the sources).

Machine numbers are modelled by `ℚ` (the spec's round-trip property is
stated over exact rational arithmetic); Python `dict` records become
structures with `Option` fields (`none` = key absent or value `None`);
fallible code returns `Except`.
-/

/-- The `baseConvFactor` record returned by `lookup('units', id)`:
`factor` and `offset` keys may be absent (Python `dict.get`). -/
structure ConvFactor where
  factor : Option ℚ
  offset : Option ℚ
deriving DecidableEq

/-- The part of a `lookup('units', id)` result that `convert_unit` reads:
the `baseConvFactor` key, which may be absent (then `.get` yields `None`). -/
structure UnitInfo where
  baseConvFactor : Option ConvFactor
deriving DecidableEq

/-- A data point as returned by `get_data_points`: `value` and `unit_id`
plus the other series fields, all possibly absent. -/
structure Point where
  value : Option ℚ := none
  unit_id : Option Int := none
  metric_id : Option Int := none
  item_id : Option Int := none
  region_id : Option Int := none
  partner_region_id : Option Int := none
  frequency_id : Option Int := none
  source_id : Option Int := none
  start_date : Option String := none
  end_date : Option String := none
  reporting_date : Option String := none
deriving DecidableEq

/-- Errors `convert_unit` can raise: the explicit
`Exception('unit_id ... is not convertible')` naming a unit id, and the
`AttributeError` Python raises when `lookup(...).get('baseConvFactor')`
returned `None` and the code calls `.get('factor')` on it (this error
names no unit id). -/
inductive ConvError where
  | NonConvertibleUnit (unit_id : Int)
  | NoneAttributeError
deriving DecidableEq

/-- `GroClient.convert_unit` (src/gro/client.py lines 855-902).  The unit
directory `units` stands for `self.lookup('units', ·)`.  Python truthiness
of `cf.get('factor')` (absent, `None` or `0` are all falsy) is
`cf.factor.getD 0 = 0`; `cf.get('offset', 0)` is `cf.offset.getD 0`. -/
def convert_unit (units : Int → UnitInfo) (point : Point) (target_unit_id : Int) :
    Except ConvError Point :=
  match point.unit_id with
  | none => .ok point
  | some uid =>
    if uid = target_unit_id then .ok point
    else
      match (units uid).baseConvFactor with
      | none => .error .NoneAttributeError
      | some fromCF =>
        if fromCF.factor.getD 0 = 0 then .error (.NonConvertibleUnit uid)
        else
          match (units target_unit_id).baseConvFactor with
          | none => .error .NoneAttributeError
          | some toCF =>
            if toCF.factor.getD 0 = 0 then .error (.NonConvertibleUnit target_unit_id)
            else
              match point.value with
              | none => .ok { point with unit_id := some target_unit_id }
              | some v =>
                let value_in_base_unit := v * fromCF.factor.getD 0 + fromCF.offset.getD 0
                let result := (value_in_base_unit - toCF.offset.getD 0) / toCF.factor.getD 0
                .ok { point with value := some result, unit_id := some target_unit_id }

/-- The state of the caller's `point` dict after `convert_unit` returns or
raises.  The Python code assigns `point['value']` and `point['unit_id']`
in place and returns the very same object, so on success the input object
ends up equal to the returned point; every raise happens before the first
assignment, so on an error the input is untouched. -/
def convert_unit_input_after (units : Int → UnitInfo) (point : Point)
    (target_unit_id : Int) : Point :=
  match convert_unit units point target_unit_id with
  | .ok p => p
  | .error _ => point

/-- A data-series selection / descriptor dict, as passed around by
`find_data_series`, `get_data_series` and `rank_series_by_source`. -/
structure Series where
  metric_id : Option Int := none
  item_id : Option Int := none
  region_id : Option Int := none
  partner_region_id : Option Int := none
  frequency_id : Option Int := none
  source_id : Option Int := none
  source_name : Option String := none
  start_date : Option String := none
  end_date : Option String := none
deriving DecidableEq

/-- The keyword arguments of `GroClient.find_data_series` (each may be
absent, and Python treats an empty string like an absent one). -/
structure Criteria where
  item : Option String := none
  metric : Option String := none
  region : Option String := none
  partner_region : Option String := none
  start_date : Option String := none
  end_date : Option String := none

/-- Python truthiness of `kwargs.get(key)` for a string-valued keyword:
absent or empty is falsy. -/
def truthy : Option String → Bool
  | none => false
  | some s => !(s == "")

/-- Calls `find_data_series` makes against the remote service:
`search(entity_type, term)` and `get_data_series(**entities)` (the
selection dict given as the ordered key/id pairs produced by
`dict(zip(keys, ids))`). -/
inductive Call where
  | search (entity_type : String) (term : String)
  | getDataSeries (entities : List (String × Int))
deriving DecidableEq

/-- Is the call a `get_data_series` call? -/
def Call.isGetDataSeries : Call → Bool
  | .getDataSeries _ => true
  | _ => false

/-- The remote operations `find_data_series` depends on.  `search` is
modelled by the ids of the returned result dicts (`entity['id']`);
`get_data_series` takes the selection as the ordered key/id pairs;
`rank_series_by_source` is `lib`'s ranking pass, abstract here. -/
structure Env where
  search : String → String → List Int
  get_data_series : List (String × Int) → List Series
  rank_series_by_source : List Series → List Series

/-- The accumulated `search_results` and `keys` lists of
`find_data_series` (lines 663-680), together with the trace of `search`
calls issued while building them. -/
structure SearchAcc where
  search_results : List (List Int)
  keys : List String
  calls : List Call
deriving DecidableEq

/-- One `if kwargs.get(role): search_results.append(...); keys.append(...)`
block of `find_data_series`. -/
def addRole (env : Env) (K : Nat) (acc : SearchAcc)
    (entity_type : String) (term : Option String) (key : String) : SearchAcc :=
  if truthy term then
    { search_results := acc.search_results ++ [(env.search entity_type (term.getD "")).take K],
      keys := acc.keys ++ [key],
      calls := acc.calls ++ [Call.search entity_type (term.getD "")] }
  else acc

/-- Lines 663-680 of `find_data_series`: build `search_results` and `keys`
for the roles present in the keyword arguments, in the fixed order
item, metric, region, partner_region, truncating each search result to
`K = cfg.MAX_RESULT_COMBINATION_DEPTH` entries. -/
def searchPhase (env : Env) (K : Nat) (c : Criteria) : SearchAcc :=
  let a0 : SearchAcc := ⟨[], [], []⟩
  let a1 := addRole env K a0 "items" c.item "item_id"
  let a2 := addRole env K a1 "metrics" c.metric "metric_id"
  let a3 := addRole env K a2 "regions" c.region "region_id"
  addRole env K a3 "regions" c.partner_region "partner_region_id"

/-- `itertools.product(*lists)`: the Cartesian product of the lists, in
Python's odometer order (the last list varies fastest); the product of no
lists is the single empty tuple. -/
def pyProduct {α : Type} : List (List α) → List (List α)
  | [] => [[]]
  | xs :: rest => xs.flatMap (fun x => (pyProduct rest).map (x :: ·))

/-- Lines 688-692 of `find_data_series`: stamp the requested `start_date`
and `end_date` onto a found series when they were supplied. -/
def stampDates (c : Criteria) (ds : Series) : Series :=
  let d1 := if truthy c.start_date then { ds with start_date := c.start_date } else ds
  if truthy c.end_date then { d1 with end_date := c.end_date } else d1

/-- One iteration of the `for comb in itertools.product(*search_results)`
loop (lines 682-693): build the `entities` dict from the keys and the id
combination, call `get_data_series`, stamp dates, append to
`all_data_series` (first component) and record the call (second
component). -/
def combStep (env : Env) (c : Criteria) (sa : SearchAcc)
    (acc : List Series × List Call) (comb : List Int) : List Series × List Call :=
  let entities := sa.keys.zip comb
  let data_series_list := env.get_data_series entities
  (acc.1 ++ data_series_list.map (stampDates c),
   acc.2 ++ [Call.getDataSeries entities])

/-- The whole combination loop of `find_data_series` (lines 681-693). -/
def combPhase (env : Env) (c : Criteria) (sa : SearchAcc) :
    List Series × List Call :=
  (pyProduct sa.search_results).foldl (combStep env c sa) ([], [])

/-- `GroClient.find_data_series` (src/gro/client.py lines 618-697),
instrumented with the trace of remote `search` / `get_data_series` calls
it issues: the first component is the yielded (ranked) sequence, the
second the call trace. -/
def find_data_series (env : Env) (K : Nat) (c : Criteria) :
    List Series × List Call :=
  let sa := searchPhase env K c
  let (all_data_series, combCalls) := combPhase env c sa
  (env.rank_series_by_source all_data_series, sa.calls ++ combCalls)

/-- Following the spec's words, for comparison with the code: a Cartesian
product of the per-role candidate lists "in an order that varies the
first role fastest". -/
def productFirstFastest {α : Type} : List (List α) → List (List α)
  | [] => [[]]
  | xs :: rest => (productFirstFastest rest).flatMap (fun t => xs.map (· :: t))

/-- A selection with its presentation `source_name` and any previous
`source_id` removed, as required before a ranking call. -/
def stripSource (s : Series) : Series :=
  { s with source_id := none, source_name := none }

/-- Modelled from the spec: `lib.rank_series_by_source` is not under
`src/` (only `GroClient.rank_series_by_source`, which delegates to it, and
its test are).  Spec 4.3: for each selection in the given order, call the
ranking endpoint with the selection (any `source_name` / `source_id`
present is ignored for the call and must not appear in the output items);
the endpoint returns source ids best first, and for each returned id a
descriptor equal to the input selection with `source_id` set to that id is
yielded, in the returned order.  `rankSources` stands for the ranking
endpoint. -/
def rank_series_by_source (rankSources : Series → List Int)
    (selections : List Series) : List Series :=
  selections.flatMap (fun s =>
    let s' := stripSource s
    (rankSources s').map (fun sid => { s' with source_id := some sid }))

/-- A region entity as held by the region directory. -/
structure Region where
  id : Int
  name : String
  contains : List Int
  belongsTo : List Int
  historical : Bool
  level : Option Int := none
deriving DecidableEq

/-- One element of a `get_descendant_regions` result: the full entity when
`include_details` is true, else the bare `id` dict. -/
inductive RegionOut where
  | full (r : Region)
  | idOnly (id : Int)
deriving DecidableEq

/-- Modelled from the spec: `lib.get_descendant_regions` is not under
`src/` (only `GroClient.get_descendant_regions`, which delegates to it,
and its test are).  Spec 4.1: get the raw transitive descendant ids of
`region_id` from the directory (`listDescendants`); keep only descendants
of `descendant_level` when one is given; when `include_historical` is
false drop every descendant whose `historical` flag is true, regardless of
`include_details`; represent each kept descendant by its full entity when
`include_details` is true and by its id alone otherwise; keep the
directory's order.  `lookupRegion` stands for the directory lookup. -/
def get_descendant_regions (lookupRegion : Int → Region)
    (listDescendants : Int → List Int) (region_id : Int)
    (descendant_level : Option Int := none)
    (include_historical : Bool := true) (include_details : Bool := true) :
    List RegionOut :=
  let ids := listDescendants region_id
  let leveled := match descendant_level with
    | none => ids
    | some lvl => ids.filter (fun i => (lookupRegion i).level = some lvl)
  let kept := if include_historical then leveled
    else leveled.filter (fun i => !(lookupRegion i).historical)
  if include_details then kept.map (fun i => RegionOut.full (lookupRegion i))
  else kept.map RegionOut.idOnly

/-- `GroClient.get_data_points` (src/gro/client.py lines 415-539) after
the remote fetch: `fetch` stands for the points
`lib.get_data_points(...)` returned for the given selections, and
`unit_id` for `selections.get('unit_id')` (`some` when the `unit_id` key
is present).  When a unit is given, every point is converted to it via
`convert_unit` (a raised conversion error aborts the whole call);
otherwise the points are returned as fetched. -/
def get_data_points (units : Int → UnitInfo) (fetch : List Point)
    (unit_id : Option Int) : Except ConvError (List Point) :=
  match unit_id with
  | some target => fetch.mapM (fun p => convert_unit units p target)
  | none => .ok fetch

/-! Concrete instances used as test inputs for the theorems below. -/

/-- A directory whose `get_data_series` has one series for every
selection (including the empty one) and whose ranking pass keeps its input
as is. -/
def envNoRoles : Env :=
  { search := fun _ _ => [],
    get_data_series := fun _ => [{ item_id := some 7 }],
    rank_series_by_source := fun l => l }

/-- `find_data_series()` called with no keyword arguments. -/
def critNoRoles : Criteria := {}

/-- A directory where searching items for "X" finds ids 1, 2 and
searching metrics for "Y" finds ids 3, 4. -/
def envItemMetric : Env :=
  { search := fun entity_type term =>
      if entity_type == "items" && term == "X" then [1, 2]
      else if entity_type == "metrics" && term == "Y" then [3, 4]
      else [],
    get_data_series := fun _ => [],
    rank_series_by_source := fun l => l }

/-- `find_data_series(item="X", metric="Y")`. -/
def critItemMetric : Criteria := { item := some "X", metric := some "Y" }

/-- A unit directory where unit 1 has no `baseConvFactor` record at all
and every other unit is convertible. -/
def unitsMissingRecord : Int → UnitInfo :=
  fun u => if u = 1 then ⟨none⟩ else ⟨some ⟨some 1, none⟩⟩

/-- A point in unit 1 (the unit without a conversion record). -/
def pointMissingRecord : Point := { value := some 1, unit_id := some 1 }

/-- A unit directory where unit 5 has a conversion record whose `factor`
key is absent and every other unit is convertible. -/
def unitsZeroFactor : Int → UnitInfo :=
  fun u => if u = 5 then ⟨some ⟨none, none⟩⟩ else ⟨some ⟨some 1, none⟩⟩

/-- A point in unit 5 (the unit whose factor is absent). -/
def pointZeroFactor : Point := { value := none, unit_id := some 5 }

/-- A unit directory where every unit is convertible with factor 1. -/
def unitsPlain : Int → UnitInfo := fun _ => ⟨some ⟨some 1, none⟩⟩

/-- A point with no value, in unit 1. -/
def pointNoValue : Point := { value := none, unit_id := some 1 }

/-- `pointNoValue` after conversion to unit 2: only the unit label moved. -/
def pointNoValueOut : Point := { value := none, unit_id := some 2 }

/-- A unit directory for the round trip: unit 1 has factor 2 offset 1,
unit 2 has factor 3 offset 5. -/
def unitsRoundTrip : Int → UnitInfo :=
  fun u => if u = 1 then ⟨some ⟨some 2, some 1⟩⟩
    else if u = 2 then ⟨some ⟨some 3, some 5⟩⟩
    else ⟨none⟩

/-- A point with value 7 in unit 1. -/
def pointRoundTrip : Point := { value := some 7, unit_id := some 1 }

/-- A ranking endpoint giving `[11, 22, 33]` for selections on item 1 and
`[44, 55]` for selections on item 2. -/
def rankEndpointEx : Series → List Int :=
  fun s => if s.item_id = some 1 then [11, 22, 33]
    else if s.item_id = some 2 then [44, 55]
    else []

/-- A selection on item 1 that still carries a source and a source name. -/
def seriesEx1 : Series :=
  { item_id := some 1, metric_id := some 2540047, region_id := some 13474,
    source_id := some 123, source_name := some "dontcare" }

/-- A selection on item 2 with no source fields. -/
def seriesEx2 : Series :=
  { item_id := some 2, metric_id := some 2540047, region_id := some 13474 }

/-- The region directory of the repository's own test
(`lib_test.py`, `LOOKUP_MAP`): region 1 is historical, region 2 is not,
region 3 contains both, region 4 contains region 3. -/
def regLookupEx : Int → Region :=
  fun i => if i = 1 then ⟨1, "region 1", [], [3], true, none⟩
    else if i = 2 then ⟨2, "region 2", [], [3], false, none⟩
    else if i = 3 then ⟨3, "parent", [1, 2], [4], false, none⟩
    else if i = 4 then ⟨4, "ancestor", [3], [], false, none⟩
    else ⟨0, "", [], [], false, none⟩

/-- The descendant lists matching `regLookupEx`. -/
def regDescendantsEx : Int → List Int :=
  fun i => if i = 3 then [1, 2] else if i = 4 then [3, 1, 2] else []

/-! Theorems. -/

/-- Claim C6: `convert_unit(P, P.unit_id)` returns `P` exactly unchanged,
including when `P.value` is null, and when `P.unit_id` is null the point
is returned unchanged regardless of the target unit. -/
theorem convert_unit_identity (units : Int → UnitInfo) (P : Point) (t : Int) :
    (∀ uid, P.unit_id = some uid → convert_unit units P uid = .ok P)
    ∧ (P.unit_id = none → convert_unit units P t = .ok P) := by
  constructor
  · intro uid hu
    simp [convert_unit, hu]
  · intro hu
    simp [convert_unit, hu]

/-- Claim C3 (amended): for a point whose unit differs from the target,
whenever either unit's conversion record is present but its `factor` is
absent or zero, `convert_unit` fails with the error naming that unit id;
when either unit's conversion record is missing entirely it still fails
before any arithmetic, but with an attribute error that names no unit.
The source unit is checked first. -/
theorem convert_unit_nonconvertible (units : Int → UnitInfo) (P : Point)
    (t uid : Int) (hu : P.unit_id = some uid) (hne : uid ≠ t) :
    ((units uid).baseConvFactor = none →
      convert_unit units P t = .error .NoneAttributeError)
    ∧ (∀ cf, (units uid).baseConvFactor = some cf → cf.factor.getD 0 = 0 →
        convert_unit units P t = .error (.NonConvertibleUnit uid))
    ∧ (∀ cf, (units uid).baseConvFactor = some cf → cf.factor.getD 0 ≠ 0 →
        (units t).baseConvFactor = none →
        convert_unit units P t = .error .NoneAttributeError)
    ∧ (∀ cf cf2, (units uid).baseConvFactor = some cf → cf.factor.getD 0 ≠ 0 →
        (units t).baseConvFactor = some cf2 → cf2.factor.getD 0 = 0 →
        convert_unit units P t = .error (.NonConvertibleUnit t)) := by
  refine ⟨?_, ?_, ?_, ?_⟩
  · intro hfrom
    simp [convert_unit, hu, hne, hfrom]
  · intro cf hfrom hzero
    simp [convert_unit, hu, hne, hfrom, hzero]
  · intro cf hfrom hnz hto
    simp [convert_unit, hu, hne, hfrom, hnz, hto]
  · intro cf cf2 hfrom hnz hto hzero2
    simp [convert_unit, hu, hne, hfrom, hnz, hto, hzero2]

/-- Claim C3, as stated, is false at this input: unit 1 has no conversion
record at all, and converting out of it fails with the attribute error,
which is not the not-convertible error naming unit 1 (nor unit 2), rather
than with an error naming the offending unit. -/
theorem convert_unit_missing_record_not_named :
    convert_unit unitsMissingRecord pointMissingRecord 2 =
      .error .NoneAttributeError
    ∧ ConvError.NoneAttributeError ≠ ConvError.NonConvertibleUnit 1
    ∧ ConvError.NoneAttributeError ≠ ConvError.NonConvertibleUnit 2 := by
  refine ⟨rfl, ?_, ?_⟩ <;> intro h <;> cases h

/-- Claim C3 witness at a concrete input: unit 5's record lacks `factor`,
so conversion from unit 5 fails naming unit 5. -/
theorem convert_unit_nonconvertible_witness :
    convert_unit unitsZeroFactor pointZeroFactor 6 =
      .error (.NonConvertibleUnit 5) :=
  (convert_unit_nonconvertible unitsZeroFactor pointZeroFactor 6 5 rfl
    (by decide)).2.1 ⟨none, none⟩ rfl rfl

/-- Claim C4 (amended): `convert_unit` updates its input point in place —
after a call the caller's point equals the returned point — and on a
successful conversion only the `value` and `unit_id` fields differ from
the input: every other field is unchanged, a null `value` stays null while
`unit_id` is still set to the target, and when the unit is null or already
the target the point is returned exactly unchanged. -/
theorem convert_unit_effects (units : Int → UnitInfo) (P P' : Point) (t : Int)
    (h : convert_unit units P t = .ok P') :
    convert_unit_input_after units P t = P'
    ∧ P'.metric_id = P.metric_id ∧ P'.item_id = P.item_id
    ∧ P'.region_id = P.region_id ∧ P'.partner_region_id = P.partner_region_id
    ∧ P'.frequency_id = P.frequency_id ∧ P'.source_id = P.source_id
    ∧ P'.start_date = P.start_date ∧ P'.end_date = P.end_date
    ∧ P'.reporting_date = P.reporting_date
    ∧ (P.value = none → P'.value = none)
    ∧ (P.unit_id = none ∨ P.unit_id = some t → P' = P)
    ∧ (P.unit_id ≠ none → P.unit_id ≠ some t → P'.unit_id = some t) := by
  have hafter : convert_unit_input_after units P t = P' := by
    simp [convert_unit_input_after, h]
  refine ⟨hafter, ?_⟩
  cases hpu : P.unit_id with
  | none =>
    simp [convert_unit, hpu] at h
    subst h
    simp [hpu]
  | some uid =>
    by_cases ht : uid = t
    · subst ht
      simp [convert_unit, hpu] at h
      subst h
      simp [hpu]
    · cases hfrom : (units uid).baseConvFactor with
      | none => simp [convert_unit, hpu, ht, hfrom] at h
      | some fromCF =>
        by_cases hz : fromCF.factor.getD 0 = 0
        · simp [convert_unit, hpu, ht, hfrom, hz] at h
        · cases hto : (units t).baseConvFactor with
          | none => simp [convert_unit, hpu, ht, hfrom, hz, hto] at h
          | some toCF =>
            by_cases hz2 : toCF.factor.getD 0 = 0
            · simp [convert_unit, hpu, ht, hfrom, hz, hto, hz2] at h
            · cases hv : P.value with
              | none =>
                simp [convert_unit, hpu, ht, hfrom, hz, hto, hz2, hv] at h
                subst h
                simp [hpu, ht, hv]
              | some v =>
                simp [convert_unit, hpu, ht, hfrom, hz, hto, hz2, hv] at h
                subst h
                simp [hpu, ht, hv]

/-- Claim C4, as stated, is false at this input: converting a point from
unit 1 to unit 2 leaves the caller's point dict changed (Python assigns
`point['unit_id']` in place), so `convert_unit` does mutate its input. -/
theorem convert_unit_mutates_input :
    convert_unit_input_after unitsPlain pointNoValue 2 = pointNoValueOut
    ∧ convert_unit_input_after unitsPlain pointNoValue 2 ≠ pointNoValue := by
  decide

/-- Claim C4 witness at a concrete input: a successful conversion of a
point with a null value, checking the frame conditions there. -/
theorem convert_unit_effects_witness :
    convert_unit_input_after unitsPlain pointNoValue 2 = pointNoValueOut
    ∧ pointNoValueOut.metric_id = pointNoValue.metric_id
    ∧ pointNoValueOut.item_id = pointNoValue.item_id
    ∧ pointNoValueOut.region_id = pointNoValue.region_id
    ∧ pointNoValueOut.partner_region_id = pointNoValue.partner_region_id
    ∧ pointNoValueOut.frequency_id = pointNoValue.frequency_id
    ∧ pointNoValueOut.source_id = pointNoValue.source_id
    ∧ pointNoValueOut.start_date = pointNoValue.start_date
    ∧ pointNoValueOut.end_date = pointNoValue.end_date
    ∧ pointNoValueOut.reporting_date = pointNoValue.reporting_date
    ∧ (pointNoValue.value = none → pointNoValueOut.value = none)
    ∧ (pointNoValue.unit_id = none ∨ pointNoValue.unit_id = some 2 →
        pointNoValueOut = pointNoValue)
    ∧ (pointNoValue.unit_id ≠ none → pointNoValue.unit_id ≠ some 2 →
        pointNoValueOut.unit_id = some 2) :=
  convert_unit_effects unitsPlain pointNoValue pointNoValueOut 2 rfl

/-- Claim C5: for a point with a value and convertible units `a` and `b`
(conversion records present, factors non-zero), converting to `b` and back
to `a` succeeds and restores the original value exactly, over exact
rational arithmetic. -/
theorem convert_unit_round_trip (units : Int → UnitInfo) (P : Point)
    (a b : Int) (v : ℚ) (cfa cfb : ConvFactor)
    (hv : P.value = some v) (hu : P.unit_id = some a)
    (ha : (units a).baseConvFactor = some cfa) (hfa : cfa.factor.getD 0 ≠ 0)
    (hb : (units b).baseConvFactor = some cfb) (hfb : cfb.factor.getD 0 ≠ 0) :
    ∃ P1 P2, convert_unit units P b = .ok P1 ∧ convert_unit units P1 a = .ok P2
      ∧ P2.value = P.value := by
  by_cases hab : a = b
  · subst hab
    refine ⟨P, P, ?_, ?_, rfl⟩ <;> simp [convert_unit, hu]
  · set r1 : ℚ := (v * cfa.factor.getD 0 + cfa.offset.getD 0 - cfb.offset.getD 0) /
      cfb.factor.getD 0 with hr1
    set r2 : ℚ := (r1 * cfb.factor.getD 0 + cfb.offset.getD 0 - cfa.offset.getD 0) /
      cfa.factor.getD 0 with hr2
    refine ⟨{ P with value := some r1, unit_id := some b },
      { P with value := some r2, unit_id := some a }, ?_, ?_, ?_⟩
    · simp [convert_unit, hu, hab, ha, hfa, hb, hfb, hv]
    · simp [convert_unit, hu, hab, ha, hfa, hb, hfb, hv, Ne.symm hab]
    · have : r2 = v := by
        rw [hr2, hr1]
        field_simp
      simp [hv, this]

/-- Claim C5 witness at a concrete input: value 7, unit 1 (factor 2,
offset 1) to unit 2 (factor 3, offset 5) and back. -/
theorem convert_unit_round_trip_witness :
    ∃ P1 P2, convert_unit unitsRoundTrip pointRoundTrip 2 = .ok P1
      ∧ convert_unit unitsRoundTrip P1 1 = .ok P2
      ∧ P2.value = pointRoundTrip.value :=
  convert_unit_round_trip unitsRoundTrip pointRoundTrip 1 2 7
    ⟨some 2, some 1⟩ ⟨some 3, some 5⟩ rfl rfl rfl (by decide) rfl (by decide)

/-- The search phase written out: one search result, key and call per
role present in the criteria, in the fixed role order. -/
theorem searchPhase_eq (env : Env) (K : Nat) (c : Criteria) :
    searchPhase env K c =
      ⟨(if truthy c.item then [(env.search "items" (c.item.getD "")).take K] else [])
        ++ (if truthy c.metric then [(env.search "metrics" (c.metric.getD "")).take K] else [])
        ++ (if truthy c.region then [(env.search "regions" (c.region.getD "")).take K] else [])
        ++ (if truthy c.partner_region then
              [(env.search "regions" (c.partner_region.getD "")).take K] else []),
       (if truthy c.item then ["item_id"] else [])
        ++ (if truthy c.metric then ["metric_id"] else [])
        ++ (if truthy c.region then ["region_id"] else [])
        ++ (if truthy c.partner_region then ["partner_region_id"] else []),
       (if truthy c.item then [Call.search "items" (c.item.getD "")] else [])
        ++ (if truthy c.metric then [Call.search "metrics" (c.metric.getD "")] else [])
        ++ (if truthy c.region then [Call.search "regions" (c.region.getD "")] else [])
        ++ (if truthy c.partner_region then
              [Call.search "regions" (c.partner_region.getD "")] else [])⟩ := by
  simp only [searchPhase, addRole]
  cases truthy c.item <;> cases truthy c.metric <;> cases truthy c.region <;>
    cases truthy c.partner_region <;> simp

/-- The combination loop, folded out: dates stamped on the concatenated
series, one `get_data_series` call per id combination in product order. -/
theorem combPhase_foldl (env : Env) (c : Criteria) (sa : SearchAcc)
    (combs : List (List Int)) (acc : List Series × List Call) :
    combs.foldl (combStep env c sa) acc =
      (acc.1 ++ combs.flatMap
        (fun comb => (env.get_data_series (sa.keys.zip comb)).map (stampDates c)),
       acc.2 ++ combs.map (fun comb => Call.getDataSeries (sa.keys.zip comb))) := by
  induction combs generalizing acc with
  | nil => simp
  | cons comb combs ih => simp [combStep, ih]

/-- `combPhase` in closed form. -/
theorem combPhase_eq (env : Env) (c : Criteria) (sa : SearchAcc) :
    combPhase env c sa =
      ((pyProduct sa.search_results).flatMap
        (fun comb => (env.get_data_series (sa.keys.zip comb)).map (stampDates c)),
       (pyProduct sa.search_results).map
        (fun comb => Call.getDataSeries (sa.keys.zip comb))) := by
  simp [combPhase, combPhase_foldl]

/-- The Cartesian product has as many tuples as the product of the list
lengths. -/
theorem pyProduct_length {α : Type} (L : List (List α)) :
    (pyProduct L).length = (L.map List.length).prod := by
  induction L with
  | nil => rfl
  | cons xs rest ih =>
    simp [pyProduct, ih, List.length_flatMap, Function.comp]
    induction xs with
    | nil => simp
    | cons x xs ihx => simp [ihx, ih, Nat.succ_mul, Nat.add_comm]

/-- Index form of the product order: the first list is the most
significant digit (it varies slowest; the tail's product, and so the last
list, varies fastest). -/
theorem pyProduct_getElem {α : Type} (xs : List α) (rest : List (List α)) (i r : Nat)
    (hi : i < xs.length) (hr : r < (pyProduct rest).length) :
    (pyProduct (xs :: rest))[i * (pyProduct rest).length + r]? =
      some (xs[i] :: (pyProduct rest)[r]) := by
  induction xs generalizing i with
  | nil => simp at hi
  | cons x xs ih =>
    have hsplit : pyProduct ((x :: xs) :: rest) =
        (pyProduct rest).map (x :: ·) ++ pyProduct (xs :: rest) := by
      simp [pyProduct]
    match i with
    | 0 =>
      rw [hsplit, Nat.zero_mul, Nat.zero_add,
        List.getElem?_append_left (by simpa using hr)]
      simp [List.getElem?_eq_getElem hr]
    | i + 1 =>
      rw [hsplit]
      have harith : (i + 1) * (pyProduct rest).length + r =
          ((pyProduct rest).map (x :: ·)).length + (i * (pyProduct rest).length + r) := by
        simp [Nat.succ_mul]
        ring
      rw [harith, List.getElem?_append_right (Nat.le_add_right _ _),
        Nat.add_sub_cancel_left]
      have hi' : i < xs.length := Nat.lt_of_succ_lt_succ hi
      rw [ih i hi']
      simp

/-- No call recorded by the search phase is a `get_data_series` call. -/
theorem searchPhase_calls_filter (env : Env) (K : Nat) (c : Criteria) :
    (searchPhase env K c).calls.filter Call.isGetDataSeries = [] := by
  rw [searchPhase_eq]
  cases truthy c.item <;> cases truthy c.metric <;> cases truthy c.region <;>
    cases truthy c.partner_region <;> simp [Call.isGetDataSeries]

/-- The `get_data_series` calls of a `find_data_series` run are exactly
one call per tuple of the Cartesian product, in product order, with the
selection dict zipping the present role keys with the tuple's ids. -/
theorem find_data_series_trace (env : Env) (K : Nat) (c : Criteria) :
    (find_data_series env K c).2.filter Call.isGetDataSeries =
      (pyProduct (searchPhase env K c).search_results).map
        (fun comb => Call.getDataSeries ((searchPhase env K c).keys.zip comb)) := by
  show ((searchPhase env K c).calls ++ (combPhase env c (searchPhase env K c)).2).filter
      Call.isGetDataSeries = _
  rw [List.filter_append, searchPhase_calls_filter, combPhase_eq]
  have hpred : (Call.isGetDataSeries ∘ fun comb : List Int =>
      Call.getDataSeries ((searchPhase env K c).keys.zip comb)) = fun _ => true := rfl
  simp [List.filter_map, hpred]

/-- Membership in an optional singleton of a truncated candidate list
bounds the length by the truncation. -/
theorem mem_ite_take {l cands : List Int} {b : Prop} [Decidable b] (K : Nat)
    (h : l ∈ if b then [cands.take K] else []) : l.length ≤ K := by
  split at h
  · simp at h
    subst h
    exact List.length_take_le K cands
  · simp at h

/-- Claim C1 (amended): with no role text provided, `find_data_series`
never calls `search`, but it does call `get_data_series` exactly once,
with the empty selection (the nullary `itertools.product` yields one empty
tuple), and it yields the ranking of whatever that call returned (with
dates stamped) rather than an unconditionally empty sequence. -/
theorem find_data_series_no_roles (env : Env) (K : Nat) (c : Criteria)
    (h1 : truthy c.item = false) (h2 : truthy c.metric = false)
    (h3 : truthy c.region = false) (h4 : truthy c.partner_region = false) :
    find_data_series env K c =
      (env.rank_series_by_source ((env.get_data_series []).map (stampDates c)),
       [Call.getDataSeries []]) := by
  have hsa : searchPhase env K c = ⟨[], [], []⟩ := by
    simp [searchPhase, addRole, h1, h2, h3, h4]
  simp [find_data_series, hsa, combPhase_eq, pyProduct]

/-- Claim C1, as stated, is false at this input: with no role text,
`find_data_series` still invokes `get_data_series` (the list-available
operation), once with the empty selection, and against a directory with a
series for the empty selection its result is not empty. -/
theorem find_data_series_no_roles_counterexample :
    (find_data_series envNoRoles 10 critNoRoles).1 ≠ []
    ∧ (find_data_series envNoRoles 10 critNoRoles).2 = [Call.getDataSeries []] := by
  decide

/-- Claim C1 witness at a concrete input: the no-role call against
`envNoRoles`. -/
theorem find_data_series_no_roles_witness :
    find_data_series envNoRoles 10 critNoRoles =
      (envNoRoles.rank_series_by_source
        ((envNoRoles.get_data_series []).map (stampDates critNoRoles)),
       [Call.getDataSeries []]) :=
  find_data_series_no_roles envNoRoles 10 critNoRoles rfl rfl rfl rfl

/-- Claim C2 (amended): the candidate tuples are enumerated in the
Cartesian-product order that varies the LAST present role fastest (the
first role is the most significant digit, varying slowest), and the
enumeration is stable and deterministic — it is exactly the product of the
per-role candidate lists in that order, as the `get_data_series` call
trace shows, and the tuple at index `i * |tail product| + r` starts with
the first role's `i`-th candidate. -/
theorem find_data_series_product_order (env : Env) (K : Nat) (c : Criteria) :
    ((find_data_series env K c).2.filter Call.isGetDataSeries =
      (pyProduct (searchPhase env K c).search_results).map
        (fun comb => Call.getDataSeries ((searchPhase env K c).keys.zip comb)))
    ∧ ∀ (xs : List Int) (rest : List (List Int)) (i r : Nat)
        (hi : i < xs.length) (hr : r < (pyProduct rest).length),
        (pyProduct (xs :: rest))[i * (pyProduct rest).length + r]? =
          some (xs[i] :: (pyProduct rest)[r]) :=
  ⟨find_data_series_trace env K c,
   fun xs rest i r hi hr => pyProduct_getElem xs rest i r hi hr⟩

/-- Claim C2, as stated, is false at this input: with item candidates
`[1, 2]` and metric candidates `[3, 4]`, the `get_data_series` calls are
not in the order that varies the first role (item) fastest. -/
theorem find_data_series_product_order_counterexample :
    ((find_data_series envItemMetric 10 critItemMetric).2.filter Call.isGetDataSeries =
      [Call.getDataSeries [("item_id", 1), ("metric_id", 3)],
       Call.getDataSeries [("item_id", 1), ("metric_id", 4)],
       Call.getDataSeries [("item_id", 2), ("metric_id", 3)],
       Call.getDataSeries [("item_id", 2), ("metric_id", 4)]])
    ∧ ((productFirstFastest (searchPhase envItemMetric 10 critItemMetric).search_results).map
        (fun comb => Call.getDataSeries
          ((searchPhase envItemMetric 10 critItemMetric).keys.zip comb)) =
      [Call.getDataSeries [("item_id", 1), ("metric_id", 3)],
       Call.getDataSeries [("item_id", 2), ("metric_id", 3)],
       Call.getDataSeries [("item_id", 1), ("metric_id", 4)],
       Call.getDataSeries [("item_id", 2), ("metric_id", 4)]])
    ∧ ((find_data_series envItemMetric 10 critItemMetric).2.filter Call.isGetDataSeries ≠
      (productFirstFastest (searchPhase envItemMetric 10 critItemMetric).search_results).map
        (fun comb => Call.getDataSeries
          ((searchPhase envItemMetric 10 critItemMetric).keys.zip comb))) := by
  decide

/-- Claim C7: each role present in the criteria contributes at most `K`
top search candidates; the number of candidate tuples considered before
ranking (the `get_data_series` calls) equals the product of the per-role
candidate counts; and absent roles contribute neither a key nor a
candidate list to the combinatorial space. -/
theorem find_data_series_combination_space (env : Env) (K : Nat) (c : Criteria) :
    (∀ l ∈ (searchPhase env K c).search_results, l.length ≤ K)
    ∧ ((find_data_series env K c).2.filter Call.isGetDataSeries).length =
        ((searchPhase env K c).search_results.map List.length).prod
    ∧ (searchPhase env K c).keys =
        (if truthy c.item then ["item_id"] else [])
        ++ (if truthy c.metric then ["metric_id"] else [])
        ++ (if truthy c.region then ["region_id"] else [])
        ++ (if truthy c.partner_region then ["partner_region_id"] else [])
    ∧ (searchPhase env K c).search_results =
        (if truthy c.item then [(env.search "items" (c.item.getD "")).take K] else [])
        ++ (if truthy c.metric then [(env.search "metrics" (c.metric.getD "")).take K] else [])
        ++ (if truthy c.region then [(env.search "regions" (c.region.getD "")).take K] else [])
        ++ (if truthy c.partner_region then
              [(env.search "regions" (c.partner_region.getD "")).take K] else []) := by
  refine ⟨?_, ?_, ?_, ?_⟩
  · intro l hl
    rw [searchPhase_eq] at hl
    simp only [List.mem_append] at hl
    rcases hl with ((h | h) | h) | h <;> exact mem_ite_take K h
  · rw [find_data_series_trace, List.length_map, pyProduct_length]
  · rw [searchPhase_eq]
  · rw [searchPhase_eq]

/-- Claim C8: the ranking pass processes the selections in the given
order, yielding one descriptor per ranked source id — the input selection
with `source_id` set to that id, in the endpoint's returned order — so two
selections ranking to `[11, 22, 33]` and `[44, 55]` yield exactly those
five descriptors in that order, and no output item carries a
`source_name`. -/
theorem rank_series_by_source_order (rankSources : Series → List Int)
    (S1 S2 : Series)
    (h1 : rankSources (stripSource S1) = [11, 22, 33])
    (h2 : rankSources (stripSource S2) = [44, 55]) :
    rank_series_by_source rankSources [S1, S2] =
      [{ stripSource S1 with source_id := some 11 },
       { stripSource S1 with source_id := some 22 },
       { stripSource S1 with source_id := some 33 },
       { stripSource S2 with source_id := some 44 },
       { stripSource S2 with source_id := some 55 }]
    ∧ ∀ x ∈ rank_series_by_source rankSources [S1, S2], x.source_name = none := by
  have heq : rank_series_by_source rankSources [S1, S2] =
      [{ stripSource S1 with source_id := some 11 },
       { stripSource S1 with source_id := some 22 },
       { stripSource S1 with source_id := some 33 },
       { stripSource S2 with source_id := some 44 },
       { stripSource S2 with source_id := some 55 }] := by
    simp [rank_series_by_source, h1, h2]
  refine ⟨heq, ?_⟩
  rw [heq]
  simp [List.forall_mem_cons, stripSource]

/-- Claim C8 witness at a concrete input: a ranking endpoint giving
`[11, 22, 33]` for item 1 and `[44, 55]` for item 2, applied to a
selection pair where the first one still carries source fields. -/
theorem rank_series_by_source_order_witness :
    rank_series_by_source rankEndpointEx [seriesEx1, seriesEx2] =
      [{ stripSource seriesEx1 with source_id := some 11 },
       { stripSource seriesEx1 with source_id := some 22 },
       { stripSource seriesEx1 with source_id := some 33 },
       { stripSource seriesEx2 with source_id := some 44 },
       { stripSource seriesEx2 with source_id := some 55 }]
    ∧ ∀ x ∈ rank_series_by_source rankEndpointEx [seriesEx1, seriesEx2],
        x.source_name = none :=
  rank_series_by_source_order rankEndpointEx seriesEx1 seriesEx2
    (by decide) (by decide)

/-- Claim C9: with `include_historical = false` every descendant whose
historical flag is true is dropped, whatever `include_details` is — every
output element comes from a non-historical raw descendant — and on the
test directory (region 3 containing historical region 1 and non-historical
region 2) the result is exactly `[region 2]`, or `[{id: 2}]` without
details; with historical kept and `include_details = false` the result is
`[{id: 1}, {id: 2}]`. -/
theorem get_descendant_regions_filtering :
    (∀ (lookupRegion : Int → Region) (listDescendants : Int → List Int)
        (region_id : Int) (lvl : Option Int) (details : Bool) (o : RegionOut),
        o ∈ get_descendant_regions lookupRegion listDescendants region_id lvl false details →
        ∃ i, i ∈ listDescendants region_id ∧ (lookupRegion i).historical = false ∧
          o = (if details then RegionOut.full (lookupRegion i) else RegionOut.idOnly i))
    ∧ get_descendant_regions regLookupEx regDescendantsEx 3 none false true =
        [RegionOut.full ⟨2, "region 2", [], [3], false, none⟩]
    ∧ get_descendant_regions regLookupEx regDescendantsEx 3 none false false =
        [RegionOut.idOnly 2]
    ∧ get_descendant_regions regLookupEx regDescendantsEx 3 none true false =
        [RegionOut.idOnly 1, RegionOut.idOnly 2] := by
  refine ⟨?_, by decide, by decide, by decide⟩
  intro lookupRegion listDescendants region_id lvl details o ho
  have hlev : ∀ i, i ∈ (match lvl with
      | none => listDescendants region_id
      | some l => (listDescendants region_id).filter
          (fun j => (lookupRegion j).level = some l)) →
      i ∈ listDescendants region_id := by
    intro i hi
    cases lvl with
    | none => exact hi
    | some l => exact (List.mem_filter.mp hi).1
  cases details with
  | false =>
    simp only [get_descendant_regions, Bool.false_eq_true, if_false, if_neg,
      List.mem_map] at ho
    obtain ⟨i, hi, rfl⟩ := ho
    have hf := List.mem_filter.mp hi
    exact ⟨i, hlev i hf.1, by simpa using hf.2, by simp⟩
  | true =>
    simp only [get_descendant_regions, Bool.false_eq_true, if_false, if_true,
      List.mem_map] at ho
    obtain ⟨i, hi, rfl⟩ := ho
    have hf := List.mem_filter.mp hi
    exact ⟨i, hlev i hf.1, by simpa using hf.2, by simp⟩

/-- A successful `mapM` over `Except` maps each element in order: the
output has the input's length and the function succeeds pointwise. -/
theorem mapM_except_ok {α β γ : Type} (f : α → Except γ β) :
    ∀ (l : List α) (l2 : List β), l.mapM f = .ok l2 →
      l2.length = l.length ∧
      ∀ (i : Nat) (ha : i < l.length) (hb : i < l2.length),
        f l[i] = .ok l2[i] := by
  intro l
  induction l with
  | nil =>
    intro l2 h
    rw [List.mapM_nil] at h
    cases h
    exact ⟨rfl, fun i ha _ => by cases ha⟩
  | cons a l ih =>
    intro l2 h
    rw [List.mapM_cons] at h
    cases hfa : f a with
    | error e => rw [hfa] at h; cases h
    | ok x =>
      rw [hfa] at h
      cases hml : l.mapM f with
      | error e => rw [hml] at h; cases h
      | ok xs =>
        rw [hml] at h
        cases h
        obtain ⟨hlen, hpt⟩ := ih xs hml
        refine ⟨by simp [hlen], ?_⟩
        intro i ha hb
        match i with
        | 0 => simpa using hfa
        | i + 1 =>
          simpa using hpt i (Nat.lt_of_succ_lt_succ ha) (Nat.lt_of_succ_lt_succ hb)

/-- Claim C10: when the selections carry a `unit_id`, `get_data_points`
converts every fetched point to that unit with `convert_unit`, in order
(the result has one converted point per fetched point); with no `unit_id`
key the fetched points are returned unchanged. -/
theorem get_data_points_unit_conversion (units : Int → UnitInfo)
    (fetch : List Point) :
    (∀ (target : Int) (converted : List Point),
        get_data_points units fetch (some target) = .ok converted →
        converted.length = fetch.length ∧
        ∀ (i : Nat) (ha : i < fetch.length) (hb : i < converted.length),
          convert_unit units fetch[i] target = .ok converted[i])
    ∧ get_data_points units fetch none = .ok fetch := by
  refine ⟨?_, rfl⟩
  intro target converted h
  exact mapM_except_ok (fun p => convert_unit units p target) fetch converted h
